import Mathlib

/-!
Shallow embedding of the dvorak keyboard-remapping tool.

The repository contains two generations of the remapping engine:
* `dv` embeds the latest implementation (src/unnamed/part_001): the pending
  key table `array_qwerty` stores the mapped output code, MAX_LENGTH is 8,
  and the event loop returns EXIT_SUCCESS when it stops.
* `dvc` embeds the implementation in src/dvorak.c (second version in the
  file): the pending tables store the physical code plus one, MAX_LENGTH is
  16, the umlaut (alternate-layout) layer is present, and the event loop
  returns EXIT_FAILURE when it stops.

Key codes, event types and event values are Linux input event constants;
they are represented as natural numbers (event codes are __u16 in C, and
the values that matter to the engine are 0, 1, 2).  Bitmask operations on
the modifier state mirror the 32-bit C operations; since the mask only
ever holds bits 0..4, clearing a bit with `&&& (4294967295 - b)` agrees
with the C expression `mod_state & ~b`.
-/

def EV_SYN : Nat := 0
def EV_KEY : Nat := 1
def EV_REL : Nat := 2
def EV_ABS : Nat := 3
def EV_MSC : Nat := 4
def SYN_REPORT : Nat := 0

def KEY_MINUS : Nat := 12
def KEY_EQUAL : Nat := 13
def KEY_Q : Nat := 16
def KEY_W : Nat := 17
def KEY_E : Nat := 18
def KEY_R : Nat := 19
def KEY_T : Nat := 20
def KEY_Y : Nat := 21
def KEY_U : Nat := 22
def KEY_I : Nat := 23
def KEY_O : Nat := 24
def KEY_P : Nat := 25
def KEY_LEFTBRACE : Nat := 26
def KEY_RIGHTBRACE : Nat := 27
def KEY_LEFTCTRL : Nat := 29
def KEY_A : Nat := 30
def KEY_S : Nat := 31
def KEY_D : Nat := 32
def KEY_F : Nat := 33
def KEY_G : Nat := 34
def KEY_H : Nat := 35
def KEY_J : Nat := 36
def KEY_K : Nat := 37
def KEY_L : Nat := 38
def KEY_SEMICOLON : Nat := 39
def KEY_APOSTROPHE : Nat := 40
def KEY_GRAVE : Nat := 41
def KEY_LEFTSHIFT : Nat := 42
def KEY_Z : Nat := 44
def KEY_X : Nat := 45
def KEY_C : Nat := 46
def KEY_V : Nat := 47
def KEY_B : Nat := 48
def KEY_N : Nat := 49
def KEY_M : Nat := 50
def KEY_COMMA : Nat := 51
def KEY_DOT : Nat := 52
def KEY_SLASH : Nat := 53
def KEY_RIGHTSHIFT : Nat := 54
def KEY_LEFTALT : Nat := 56
def KEY_CAPSLOCK : Nat := 58
def KEY_6 : Nat := 7
def KEY_RIGHTCTRL : Nat := 97
def KEY_RIGHTALT : Nat := 100
def KEY_LEFTMETA : Nat := 125

def EXIT_SUCCESS : Nat := 0
def EXIT_FAILURE : Nat := 1

def EINTR : Nat := 4

/-- One input event: the `type`/`code`/`value` triple of `struct input_event`
(the timestamp is irrelevant to the remapping logic and is omitted). -/
structure Event where
  type : Nat
  code : Nat
  value : Nat
deriving DecidableEq, Repr

/-- `modifier_bit` from the source (identical in both implementations). -/
def modifier_bit (key : Nat) : Nat :=
  if key = KEY_LEFTCTRL then 1
  else if key = KEY_RIGHTCTRL then 2
  else if key = KEY_LEFTALT then 4
  else if key = KEY_LEFTMETA then 8
  else if key = KEY_CAPSLOCK then 16
  else 0

/-- `qwerty2dvorak` from the source (identical in both implementations):
a switch over 35 explicit key codes with default identity. -/
def qwerty2dvorak (key : Nat) : Nat :=
  if key = KEY_MINUS then KEY_APOSTROPHE
  else if key = KEY_EQUAL then KEY_RIGHTBRACE
  else if key = KEY_Q then KEY_X
  else if key = KEY_W then KEY_COMMA
  else if key = KEY_E then KEY_D
  else if key = KEY_R then KEY_O
  else if key = KEY_T then KEY_K
  else if key = KEY_Y then KEY_T
  else if key = KEY_U then KEY_F
  else if key = KEY_I then KEY_G
  else if key = KEY_O then KEY_S
  else if key = KEY_P then KEY_R
  else if key = KEY_LEFTBRACE then KEY_MINUS
  else if key = KEY_RIGHTBRACE then KEY_EQUAL
  else if key = KEY_A then KEY_A
  else if key = KEY_S then KEY_SEMICOLON
  else if key = KEY_D then KEY_H
  else if key = KEY_F then KEY_Y
  else if key = KEY_G then KEY_U
  else if key = KEY_H then KEY_J
  else if key = KEY_J then KEY_C
  else if key = KEY_K then KEY_V
  else if key = KEY_L then KEY_P
  else if key = KEY_SEMICOLON then KEY_Z
  else if key = KEY_APOSTROPHE then KEY_Q
  else if key = KEY_Z then KEY_SLASH
  else if key = KEY_X then KEY_B
  else if key = KEY_C then KEY_I
  else if key = KEY_V then KEY_DOT
  else if key = KEY_B then KEY_N
  else if key = KEY_N then KEY_L
  else if key = KEY_M then KEY_M
  else if key = KEY_COMMA then KEY_W
  else if key = KEY_DOT then KEY_E
  else if key = KEY_SLASH then KEY_LEFTBRACE
  else key

/-- The key codes explicitly listed as cases of the `qwerty2dvorak` switch,
in source order. -/
def qwertyListed : List Nat :=
  [KEY_MINUS, KEY_EQUAL, KEY_Q, KEY_W, KEY_E, KEY_R, KEY_T, KEY_Y, KEY_U,
   KEY_I, KEY_O, KEY_P, KEY_LEFTBRACE, KEY_RIGHTBRACE, KEY_A, KEY_S, KEY_D,
   KEY_F, KEY_G, KEY_H, KEY_J, KEY_K, KEY_L, KEY_SEMICOLON, KEY_APOSTROPHE,
   KEY_Z, KEY_X, KEY_C, KEY_V, KEY_B, KEY_N, KEY_M, KEY_COMMA, KEY_DOT,
   KEY_SLASH]

/-- `umlaut2dvorak` from src/dvorak.c. -/
def umlaut2dvorak (key : Nat) : Nat :=
  if key = KEY_A then KEY_X
  else if key = KEY_X then KEY_A
  else if key = KEY_S then KEY_R
  else if key = KEY_R then KEY_S
  else if key = KEY_F then KEY_T
  else if key = KEY_T then KEY_F
  else key

/-- Outcome of one `read(fdi, &ev, sizeof ev)` in the event loop:
an error with an errno, a count different from `sizeof ev`, or a full event. -/
inductive ReadResult where
  | fail (errno : Nat)
  | short
  | ok (e : Event)
deriving DecidableEq, Repr

/-- What the event loop does with one read outcome. -/
inductive LoopAction where
  | retry
  | terminate (exit_code : Nat)
  | process (e : Event)
deriving DecidableEq, Repr

/-- Bit `i` of a capability bitmap stored as 32-bit words,
mirroring `array_bit[i / 32] & (1 << (i % 32))`. -/
def has_bit (words : List Nat) (i : Nat) : Bool :=
  Nat.testBit (words.getD (i / 32) 0) (i % 32)

namespace dv

/-- `MAX_LENGTH` in src/unnamed/part_001. -/
def MAX_LENGTH : Nat := 8

/-- The mutable engine state of `main` in src/unnamed/part_001. -/
structure State where
  l_alt : Nat
  mod_state : Nat
  disable_mapping : Bool
  array_qwerty : List Nat
  array_qwerty_counter : Nat
deriving DecidableEq, Repr

/-- The toggle detector at the top of the event loop of part_001:
three consecutive presses of KEY_LEFTALT flip `disable_mapping`. -/
def toggle_update (noToggle : Bool) (s : State) (e : Event) : State :=
  if noToggle = false ∧ e.code = KEY_LEFTALT then
    (if e.value = 1 then
      (if s.l_alt + 1 ≥ 3 then
        { s with disable_mapping := !s.disable_mapping, l_alt := 0 }
       else { s with l_alt := s.l_alt + 1 })
     else s)
  else if e.type = EV_KEY then { s with l_alt := 0 }
  else s

/-- The release handling of part_001: zero the first slot among the first
`cnt` holding `q`, then recompute the counter as one past the last nonzero
slot.  Returns `none` when `q` is not in the active region (`need_emit`
stays false in the C code). -/
def release_update (arr : List Nat) (cnt q : Nat) : Option (List Nat × Nat) :=
  match (List.range cnt).find? (fun i => arr.getD i 0 == q) with
  | none => none
  | some i =>
    let arr2 := arr.set i 0
    let cnt2 := (List.range cnt).foldl
      (fun acc j => if arr2.getD j 0 ≠ 0 then j + 1 else acc) 0
    some (arr2, cnt2)

/-- The per-event mapping logic of part_001 (lines 508-595), run after the
toggle detector.  Returns the new state, the emitted events in order, and
whether the overflow warning was printed. -/
def key_step (noCapsLockAsModifier : Bool) (s : State) (e : Event) :
    State × List Event × Bool :=
  if s.disable_mapping = false ∧ e.type = EV_KEY then
    let mod_current0 := modifier_bit e.code
    let mod_current :=
      if noCapsLockAsModifier = true ∧ mod_current0 = modifier_bit KEY_CAPSLOCK
      then 0 else mod_current0
    let new_mod :=
      if mod_current > 0 then
        (if e.value ≠ 0 then s.mod_state ||| mod_current
         else s.mod_state &&& (4294967295 - mod_current))
      else s.mod_state
    let s1 : State := { s with mod_state := new_mod }
    let qwerty_code := qwerty2dvorak e.code
    if e.code ≠ qwerty_code then
      if e.value = 1 then
        (if s1.mod_state > 0 then
          (if s1.array_qwerty_counter = MAX_LENGTH then (s1, [], true)
           else
            ({ s1 with
                array_qwerty := s1.array_qwerty.set s1.array_qwerty_counter qwerty_code,
                array_qwerty_counter := s1.array_qwerty_counter + 1 },
             [⟨e.type, qwerty_code, e.value⟩], false))
         else (s1, [e], false))
      else if e.value = 2 then
        (if qwerty_code ∈ s1.array_qwerty.take s1.array_qwerty_counter then
          (s1, [⟨e.type, qwerty_code, e.value⟩], false)
         else (s1, [e], false))
      else if e.value = 0 then
        (match release_update s1.array_qwerty s1.array_qwerty_counter qwerty_code with
         | some (arr2, cnt2) =>
            ({ s1 with array_qwerty := arr2, array_qwerty_counter := cnt2 },
             [⟨e.type, qwerty_code, e.value⟩], false)
         | none => (s1, [e], false))
      else (s1, [e], false)
    else (s1, [e], false)
  else (s, [e], false)

/-- Full processing of one event in part_001: toggle detector, then mapping. -/
def step (noToggle noCapsLockAsModifier : Bool) (s : State) (e : Event) :
    State × List Event × Bool :=
  key_step noCapsLockAsModifier (toggle_update noToggle s e) e

/-- Process a list of events, collecting everything emitted. -/
def run_events (nt nc : Bool) (s : State) : List Event → State × List Event
  | [] => (s, [])
  | e :: es =>
    let r := step nt nc s e
    let rest := run_events nt nc r.1 es
    (rest.1, r.2.1 ++ rest.2)

/-- The read-dispatch of part_001's event loop (lines 488-496): EINTR
retries; any other error or a short count breaks the loop, after which
`main` returns EXIT_SUCCESS (lines 597-599). -/
def dispatch (r : ReadResult) : LoopAction :=
  match r with
  | .fail errno => if errno = EINTR then .retry else .terminate EXIT_SUCCESS
  | .short => .terminate EXIT_SUCCESS
  | .ok e => .process e

/-- The event loop of part_001 driven by a list of read outcomes; returns
the final state, all emitted events, and the exit code if the loop broke. -/
def run_loop (nt nc : Bool) : List ReadResult → State → State × List Event × Option Nat
  | [], s => (s, [], none)
  | r :: rs, s =>
    match dispatch r with
    | .retry => run_loop nt nc rs s
    | .terminate c => (s, [], some c)
    | .process e =>
      let st := step nt nc s e
      let rest := run_loop nt nc rs st.1
      (rest.1, st.2.1 ++ rest.2.1, rest.2.2)

end dv

namespace dvc

/-- `MAX_LENGTH` in src/dvorak.c. -/
def MAX_LENGTH : Nat := 16

/-- The command-line configuration consumed by the dvorak.c engine. -/
structure Config where
  isUmlaut : Bool
  noToggle : Bool
  noCapsLockAsModifier : Bool
deriving DecidableEq, Repr

/-- The mutable engine state of `main` in src/dvorak.c. -/
structure State where
  lAlt : Nat
  mod_state : Nat
  isDvorak : Bool
  alt_gr : Bool
  lshift : Bool
  rshift : Bool
  array_qwerty : List Nat
  array_qwerty_counter : Nat
  array_umlaut : List Nat
  array_umlaut_counter : Nat
deriving DecidableEq, Repr

/-- The toggle detector of dvorak.c: identical logic to part_001, with
`isDvorak = true` meaning the mapping is disabled. -/
def toggle_update (noToggle : Bool) (s : State) (e : Event) : State :=
  if noToggle = false ∧ e.code = KEY_LEFTALT then
    (if e.value = 1 then
      (if s.lAlt + 1 ≥ 3 then { s with isDvorak := !s.isDvorak, lAlt := 0 }
       else { s with lAlt := s.lAlt + 1 })
     else s)
  else if e.type = EV_KEY then { s with lAlt := 0 }
  else s

/-- The release scan of dvorak.c: zero every slot among the first `cnt`
holding `target` (the loop has no break); the Bool records whether any
slot matched (in C, whether `code` was reassigned to the mapped code). -/
def release_scan (arr : List Nat) (cnt target : Nat) : List Nat × Bool :=
  (List.range cnt).foldl
    (fun (p : List Nat × Bool) i =>
      if p.1.getD i 0 = target then (p.1.set i 0, true) else p)
    (arr, false)

/-- The cleanup loop of dvorak.c: walk from slot `cnt - 1` downwards,
decrementing the counter over trailing zero slots. -/
def trim_counter (arr : List Nat) : Nat → Nat
  | 0 => 0
  | n + 1 => if arr.getD n 0 = 0 then trim_counter arr n else n + 1

/-- Press/release handling of one pending table in dvorak.c (used for both
the umlaut and the qwerty table): returns the updated slots and counter,
the code to emit, and whether the overflow warning was printed. -/
def pending_update (map : Nat → Nat) (arr : List Nat) (cnt : Nat) (e : Event) :
    (List Nat × Nat) × Nat × Bool :=
  if e.value = 1 then
    (if cnt = MAX_LENGTH then ((arr, cnt), e.code, true)
     else ((arr.set cnt (e.code + 1), cnt + 1), map e.code, false))
  else
    let scan := release_scan arr cnt (e.code + 1)
    let code := if scan.2 = true then map e.code else e.code
    ((scan.1, trim_counter scan.1 cnt), code, false)

/-- The per-event mapping logic of dvorak.c (lines 991-1147 of the second
version in the file), run after the toggle detector.  Returns the new
state, the emitted events in order, and whether the overflow warning was
printed. -/
def key_step (cfg : Config) (s : State) (e : Event) :
    State × List Event × Bool :=
  if s.isDvorak = true then (s, [e], false)
  else if e.type = EV_KEY ∧ (e.value = 0 ∨ e.value = 1) then
    let s1 := if e.code = KEY_RIGHTALT then { s with alt_gr := e.value = 1 } else s
    let s2 := if e.code = KEY_RIGHTSHIFT then { s1 with rshift := e.value = 1 } else s1
    let s3 := if e.code = KEY_LEFTSHIFT then { s2 with lshift := e.value = 1 } else s2
    let mod_current0 := modifier_bit e.code
    let mod_current :=
      if cfg.noCapsLockAsModifier = true ∧ mod_current0 = modifier_bit KEY_CAPSLOCK
      then 0 else mod_current0
    let s4 : State :=
      if mod_current > 0 then
        (if e.value = 1 then { s3 with mod_state := s3.mod_state ||| mod_current }
         else { s3 with mod_state := s3.mod_state &&& (4294967295 - mod_current) })
      else s3
    if cfg.isUmlaut = true ∧ e.code = KEY_6 then
      (if e.value = 1 then
        (if (s4.lshift = true ∨ s4.rshift = true) ∧ s4.alt_gr = false then
          (s4, [⟨EV_KEY, KEY_RIGHTALT, 1⟩, ⟨EV_SYN, SYN_REPORT, 0⟩,
                ⟨EV_KEY, e.code, e.value⟩], false)
         else if (s4.lAlt ≠ 0 ∨ s4.rshift = true) ∧ s4.alt_gr = true then
          (s4, [⟨EV_KEY, KEY_RIGHTALT, 0⟩, ⟨EV_SYN, SYN_REPORT, 0⟩,
                ⟨EV_KEY, e.code, e.value⟩], false)
         else (s4, [⟨EV_KEY, e.code, e.value⟩], false))
       else
        (if (s4.lshift = true ∨ s4.rshift = true) ∧ s4.alt_gr = false then
          (s4, [⟨EV_KEY, KEY_RIGHTALT, 0⟩, ⟨EV_SYN, SYN_REPORT, 0⟩,
                ⟨EV_KEY, e.code, e.value⟩], false)
         else (s4, [⟨EV_KEY, e.code, e.value⟩], false)))
    else if cfg.isUmlaut = true ∧ (e.code = KEY_Q ∨ e.code = KEY_GRAVE) then
      (if e.value = 1 then
        (if s4.alt_gr = false then
          (s4, [⟨EV_KEY, KEY_RIGHTALT, 1⟩, ⟨EV_SYN, SYN_REPORT, 0⟩,
                ⟨EV_KEY, e.code, e.value⟩], false)
         else
          (s4, [⟨EV_KEY, KEY_RIGHTALT, 0⟩, ⟨EV_SYN, SYN_REPORT, 0⟩,
                ⟨EV_KEY, e.code, e.value⟩], false))
       else
        (if s4.alt_gr = false then
          (s4, [⟨EV_KEY, KEY_RIGHTALT, 0⟩, ⟨EV_SYN, SYN_REPORT, 0⟩,
                ⟨EV_KEY, e.code, e.value⟩], false)
         else (s4, [⟨EV_KEY, e.code, e.value⟩], false)))
    else if cfg.isUmlaut = true ∧ e.code ≠ umlaut2dvorak e.code ∧
            (s4.alt_gr = true ∨ s4.array_umlaut_counter > 0) then
      let p := pending_update umlaut2dvorak s4.array_umlaut s4.array_umlaut_counter e
      ({ s4 with array_umlaut := p.1.1, array_umlaut_counter := p.1.2 },
       [⟨e.type, p.2.1, e.value⟩], p.2.2)
    else if e.code ≠ qwerty2dvorak e.code ∧
            (s4.mod_state > 0 ∨ s4.array_qwerty_counter > 0) then
      let p := pending_update qwerty2dvorak s4.array_qwerty s4.array_qwerty_counter e
      ({ s4 with array_qwerty := p.1.1, array_qwerty_counter := p.1.2 },
       [⟨e.type, p.2.1, e.value⟩], p.2.2)
    else (s4, [e], false)
  else (s, [e], false)

/-- Full processing of one event in dvorak.c: toggle detector, then mapping. -/
def step (cfg : Config) (s : State) (e : Event) : State × List Event × Bool :=
  key_step cfg (toggle_update cfg.noToggle s e) e

/-- Process a list of events, collecting everything emitted. -/
def run_events (cfg : Config) (s : State) : List Event → State × List Event
  | [] => (s, [])
  | e :: es =>
    let r := step cfg s e
    let rest := run_events cfg r.1 es
    (rest.1, r.2.1 ++ rest.2)

/-- The read-dispatch of dvorak.c's event loop (lines 965-977): EINTR
retries; any other error or a short count breaks the loop, after which
`main` returns EXIT_FAILURE (lines 1148-1151). -/
def dispatch (r : ReadResult) : LoopAction :=
  match r with
  | .fail errno => if errno = EINTR then .retry else .terminate EXIT_FAILURE
  | .short => .terminate EXIT_FAILURE
  | .ok e => .process e

end dvc

namespace dv

/-- Case-insensitive substring test, mirroring `strcasestr(hay, needle)`. -/
def strcasestr_has (hay needle : String) : Bool :=
  let h := hay.data.map Char.toLower
  let n := needle.data.map Char.toLower
  (List.range (h.length + 1)).any (fun i => n.isPrefixOf (h.drop i))

/-- The keyword filter of part_001: with no `-m` option every device
passes; otherwise some space-separated token must occur case-insensitively
in the device name. -/
def match_passes (match_words : Option (List String)) (keyboard_name : String) : Bool :=
  match match_words with
  | none => true
  | some tokens => tokens.any (fun t => strcasestr_has keyboard_name t)

/-- The fixed identity of the virtual device (`usetup.name`). -/
def virtual_name : String := "Virtual Dvorak Keyboard"

/-- Results of the system calls `main` makes during setup, after the input
device was opened.  `none` on an Option field models a failing ioctl. -/
structure SetupEnv where
  name_res : Option String
  match_words : Option (List String)
  ev_bits_res : Option (List Nat)
  key_bits_res : Option (List Nat)
  rel_bits_res : Option (List Nat)
  abs_bits_res : Option (List Nat)
  msc_bits_res : Option (List Nat)
  uinput_open_ok : Bool
  dev_setup_ok : Bool
  setup_ev_ok : Bool
  setup_key_ok : Bool
  setup_rel_ok : Bool
  setup_abs_ok : Bool
  setup_msc_ok : Bool
  dev_create_ok : Bool
  grab_ok : Bool

/-- Outcome of the setup phase: the exit code if the process stops before
the event loop (`none` means it reaches the loop), and whether the virtual
device was created (UI_DEV_CREATE succeeded). -/
structure SetupOutcome where
  exit_code : Option Nat
  device_created : Bool
deriving DecidableEq, Repr

/-- The setup phase of `main` in part_001 (lines 314-477), from the
EVIOCGNAME call to the EVIOCGRAB call, in source order: device name, the
self-created-device check, the keyword filter, the capability reads, the
keyboard classification (KEY_X, KEY_C, KEY_V), then virtual-device
construction and the grab. -/
def main_setup (env : SetupEnv) : SetupOutcome :=
  match env.name_res with
  | none => ⟨some EXIT_FAILURE, false⟩
  | some keyboard_name =>
    if keyboard_name = virtual_name then ⟨some EXIT_SUCCESS, false⟩
    else if match_passes env.match_words keyboard_name = false then
      ⟨some EXIT_FAILURE, false⟩
    else
      match env.ev_bits_res with
      | none => ⟨some EXIT_FAILURE, false⟩
      | some array_bit_ev =>
        let key_read := if has_bit array_bit_ev EV_KEY then env.key_bits_res
                        else some (List.replicate 24 0)
        let rel_read := if has_bit array_bit_ev EV_REL then env.rel_bits_res
                        else some [0]
        let abs_read := if has_bit array_bit_ev EV_ABS then env.abs_bits_res
                        else some [0, 0]
        let msc_read := if has_bit array_bit_ev EV_MSC then env.msc_bits_res
                        else some [0]
        match key_read, rel_read, abs_read, msc_read with
        | some array_bit_key, some _, some _, some _ =>
          if (has_bit array_bit_key KEY_X && has_bit array_bit_key KEY_C &&
              has_bit array_bit_key KEY_V) = false then
            ⟨some EXIT_SUCCESS, false⟩
          else if env.uinput_open_ok = false then ⟨some EXIT_FAILURE, false⟩
          else if env.dev_setup_ok = false then ⟨some EXIT_FAILURE, false⟩
          else if env.setup_ev_ok = false then ⟨some EXIT_FAILURE, false⟩
          else if env.setup_key_ok = false then ⟨some EXIT_FAILURE, false⟩
          else if env.setup_rel_ok = false then ⟨some EXIT_FAILURE, false⟩
          else if env.setup_abs_ok = false then ⟨some EXIT_FAILURE, false⟩
          else if env.setup_msc_ok = false then ⟨some EXIT_FAILURE, false⟩
          else if env.dev_create_ok = false then ⟨some EXIT_FAILURE, false⟩
          else if env.grab_ok = false then ⟨some EXIT_FAILURE, true⟩
          else ⟨none, true⟩
        | _, _, _, _ => ⟨some EXIT_FAILURE, false⟩

/-- An action performed by `setup_event_type` in the UI_SET_ABSBIT case:
copying one axis's absinfo parameters to the virtual device (EVIOCGABS
followed by UI_ABS_SETUP), or registering one axis (UI_SET_ABSBIT). -/
inductive AbsAction where
  | param_copy (axis : Nat)
  | set_bit (axis : Nat)
deriving DecidableEq, Repr

/-- Whether an action is a parameter copy. -/
def AbsAction.is_param_copy : AbsAction → Bool
  | .param_copy _ => true
  | .set_bit _ => false

/-- Which of the per-axis system calls succeed. -/
structure AbsEnv where
  eviocgabs_ok : Nat → Bool
  ui_abs_setup_ok : Nat → Bool
  set_absbit_ok : Nat → Bool

/-- The loop body of `setup_event_type` (part_001 lines 198-249) for the
UI_SET_ABSBIT case, iterating over the remaining axis indices with the
`abs_init_once` flag: an advertised axis first gets its parameters copied
only while the flag is still false; a failed EVIOCGABS or UI_ABS_SETUP
skips the axis (continue); a failed UI_SET_ABSBIT aborts with false. -/
def setup_abs_go (env : AbsEnv) (bits : List Nat) :
    List Nat → Bool → List AbsAction → Bool × List AbsAction
  | [], _, acc => (true, acc)
  | i :: rest, abs_init_once, acc =>
    if has_bit bits i = false then setup_abs_go env bits rest abs_init_once acc
    else if abs_init_once = false then
      (if env.eviocgabs_ok i = false then setup_abs_go env bits rest false acc
       else if env.ui_abs_setup_ok i = false then setup_abs_go env bits rest false acc
       else if env.set_absbit_ok i = false then (false, acc ++ [AbsAction.param_copy i])
       else setup_abs_go env bits rest true
              (acc ++ [AbsAction.param_copy i, AbsAction.set_bit i]))
    else
      (if env.set_absbit_ok i = false then (false, acc)
       else setup_abs_go env bits rest abs_init_once (acc ++ [AbsAction.set_bit i]))

/-- `setup_event_type(fdi, fdo, UI_SET_ABSBIT, max_val, array_bit)`:
returns overall success and the actions performed, in order. -/
def setup_event_type_abs (env : AbsEnv) (max_val : Nat) (bits : List Nat) :
    Bool × List AbsAction :=
  setup_abs_go env bits (List.range max_val) false []

end dv

/-! Concrete states, configurations and traces used by the witnesses and
counterexamples below. -/

/-- Fresh part_001 state: the initial values of the loop variables. -/
def s0dv : dv.State := ⟨0, 0, false, List.replicate 8 0, 0⟩

/-- part_001 state with left-ctrl held (mod_state = 1). -/
def c1s : dv.State := ⟨0, 1, false, List.replicate 8 0, 0⟩

/-- ctrl press, Q press (remapped to X while ctrl held), three consecutive
left-alt presses (modifier presses that complete a toggle), Q release. -/
def c1trace : List Event :=
  [⟨EV_KEY, KEY_LEFTCTRL, 1⟩, ⟨EV_KEY, KEY_Q, 1⟩, ⟨EV_KEY, KEY_LEFTALT, 1⟩,
   ⟨EV_KEY, KEY_LEFTALT, 1⟩, ⟨EV_KEY, KEY_LEFTALT, 1⟩, ⟨EV_KEY, KEY_Q, 0⟩]

/-- A press of the toggle key. -/
def ealt : Event := ⟨EV_KEY, KEY_LEFTALT, 1⟩

/-- part_001 state whose consecutive-press counter already holds 1. -/
def c3s : dv.State := ⟨1, 0, false, List.replicate 8 0, 0⟩

/-- part_001 state with a full pending table (8 mapped codes) and a
nonzero modifier state. -/
def sFull : dv.State := ⟨0, 1, false, [40, 27, 45, 51, 32, 24, 37, 20], 8⟩

/-- part_001 state with the mapping toggled off. -/
def c5s : dv.State := ⟨0, 3, true, [45, 51, 0, 0, 0, 0, 0, 0], 2⟩

/-- dvorak.c configuration without the umlaut layer. -/
def cfgPlain : dvc.Config := ⟨false, false, false⟩

/-- dvorak.c configuration with the umlaut layer enabled (`-u`). -/
def cfgUmlaut : dvc.Config := ⟨true, false, false⟩

/-- dvorak.c state with a full qwerty pending table (16 entries) and a
nonzero modifier state. -/
def sFullC : dvc.State :=
  ⟨0, 1, false, false, false, false, List.replicate 16 31, 16, List.replicate 16 0, 0⟩

/-- Fresh dvorak.c state. -/
def s0dvc : dvc.State :=
  ⟨0, 0, false, false, false, false, List.replicate 16 0, 0, List.replicate 16 0, 0⟩

/-- Press left-shift, press the KEY_6 dead key, release left-shift,
release KEY_6. -/
def umlautTrace : List Event :=
  [⟨EV_KEY, KEY_LEFTSHIFT, 1⟩, ⟨EV_KEY, KEY_6, 1⟩, ⟨EV_KEY, KEY_LEFTSHIFT, 0⟩,
   ⟨EV_KEY, KEY_6, 0⟩]

/-- Every per-axis system call succeeds. -/
def envAllOk : dv.AbsEnv := ⟨fun _ => true, fun _ => true, fun _ => true⟩

/-- EVIOCGABS fails for axis 0 and succeeds elsewhere. -/
def envFail0 : dv.AbsEnv := ⟨fun i => decide (i ≠ 0), fun _ => true, fun _ => true⟩

/-- part_001 state with the mapping toggled off and the consecutive-press
counter at 2, so that one more toggle press re-enables the mapping. -/
def c5x : dv.State := ⟨2, 0, true, List.replicate 8 0, 0⟩

/-- A device whose event bitmap advertises EV_KEY but whose key bitmap is
all zeros (no KEY_X, KEY_C, KEY_V); every system call succeeds. -/
def envNoKeys : dv.SetupEnv :=
  ⟨some "Some Device", none, some [2], some (List.replicate 24 0), some [0],
   some [0, 0], some [0], true, true, true, true, true, true, true, true, true⟩


/-! Helper lemmas about the layout map. -/

theorem modifier_bit_fixed (k : Nat) (h : modifier_bit k ≠ 0) :
    qwerty2dvorak k = k := by
  unfold modifier_bit at h
  split_ifs at h with h1 h2 h3 h4 h5
  · subst h1; decide
  · subst h2; decide
  · subst h3; decide
  · subst h4; decide
  · subst h5; decide
  · exact absurd rfl h

theorem q2d_modifier_zero (c : Nat) (h : qwerty2dvorak c ≠ c) :
    modifier_bit c = 0 := by
  by_contra hc
  exact h (modifier_bit_fixed c hc)

theorem q2d_ne_leftalt (c : Nat) (h : qwerty2dvorak c ≠ c) : c ≠ KEY_LEFTALT := by
  intro hc
  subst hc
  exact h (by decide)

theorem q2d_off_list (k : Nat) (h : k ∉ qwertyListed) : qwerty2dvorak k = k := by
  simp only [qwertyListed, List.mem_cons, List.not_mem_nil, or_false, not_or] at h
  obtain ⟨h1, h2, h3, h4, h5, h6, h7, h8, h9, h10, h11, h12, h13, h14, h15, h16,
    h17, h18, h19, h20, h21, h22, h23, h24, h25, h26, h27, h28, h29, h30, h31,
    h32, h33, h34, h35⟩ := h
  simp only [qwerty2dvorak, KEY_MINUS, KEY_EQUAL, KEY_Q, KEY_W, KEY_E, KEY_R,
    KEY_T, KEY_Y, KEY_U, KEY_I, KEY_O, KEY_P, KEY_LEFTBRACE, KEY_RIGHTBRACE,
    KEY_A, KEY_S, KEY_D, KEY_F, KEY_G, KEY_H, KEY_J, KEY_K, KEY_L,
    KEY_SEMICOLON, KEY_APOSTROPHE, KEY_Z, KEY_X, KEY_C, KEY_V, KEY_B, KEY_N,
    KEY_M, KEY_COMMA, KEY_DOT, KEY_SLASH] at *
  simp only [if_neg h1, if_neg h2, if_neg h3, if_neg h4, if_neg h5, if_neg h6,
    if_neg h7, if_neg h8, if_neg h9, if_neg h10, if_neg h11, if_neg h12,
    if_neg h13, if_neg h14, if_neg h15, if_neg h16, if_neg h17, if_neg h18,
    if_neg h19, if_neg h20, if_neg h21, if_neg h22, if_neg h23, if_neg h24,
    if_neg h25, if_neg h26, if_neg h27, if_neg h28, if_neg h29, if_neg h30,
    if_neg h31, if_neg h32, if_neg h33, if_neg h34, if_neg h35]

theorem q2d_in_list : ∀ k ∈ qwertyListed, qwerty2dvorak k ∈ qwertyListed := by
  decide

theorem q2d_inj_on_list :
    ∀ a ∈ qwertyListed, ∀ b ∈ qwertyListed,
      qwerty2dvorak a = qwerty2dvorak b → a = b := by
  decide

theorem q2d_inj (a b : Nat) (h : qwerty2dvorak a = qwerty2dvorak b) : a = b := by
  by_cases ha : a ∈ qwertyListed <;> by_cases hb : b ∈ qwertyListed
  · exact q2d_inj_on_list a ha b hb h
  · exfalso
    have hqa := q2d_in_list a ha
    rw [h, q2d_off_list b hb] at hqa
    exact hb hqa
  · exfalso
    have hqb := q2d_in_list b hb
    rw [← h, q2d_off_list a ha] at hqb
    exact ha hqb
  · rw [q2d_off_list a ha, q2d_off_list b hb] at h; exact h

/-! Claim C10. -/

/-- C10 counterexample: the `qwerty2dvorak` switch lists 35 key codes, not
36 as the claim states. -/
theorem C10_counterexample :
    qwertyListed.length = 35 ∧ qwertyListed.length ≠ 36 := by decide

/-- C10 (amended): `qwerty2dvorak` is a permutation of key codes — it maps
the 35 explicitly listed codes bijectively onto that same set of 35 codes
and is the identity on every other code; it is globally injective, so in
the latest implementation, whose pending table stores mapped output codes,
each held physical key corresponds to a unique table entry and membership
of a mapped code in the table is equivalent to membership of the physical
code in a physical-code-keyed table. -/
theorem C10_amended :
    (qwertyListed.length = 35 ∧ qwertyListed.Nodup) ∧
    (∀ k ∈ qwertyListed, qwerty2dvorak k ∈ qwertyListed) ∧
    (∀ m ∈ qwertyListed, ∃ k ∈ qwertyListed, qwerty2dvorak k = m) ∧
    (∀ k : Nat, k ∉ qwertyListed → qwerty2dvorak k = k) ∧
    (∀ a b : Nat, qwerty2dvorak a = qwerty2dvorak b → a = b) ∧
    (∀ (held : List Nat) (c : Nat),
       qwerty2dvorak c ∈ held.map qwerty2dvorak ↔ c ∈ held) := by
  refine ⟨by decide, q2d_in_list, by decide, q2d_off_list, q2d_inj, ?_⟩
  intro held c
  constructor
  · intro h
    obtain ⟨x, hx, he⟩ := List.mem_map.mp h
    exact q2d_inj x c he ▸ hx
  · intro h
    exact List.mem_map_of_mem qwerty2dvorak h

/-- C10 witness: the amended permutation facts evaluated at KEY_Q (a listed
code, mapped to KEY_X) and at the unlisted code 1000 (left unchanged). -/
theorem C10_witness :
    qwerty2dvorak KEY_Q ∈ qwertyListed ∧ qwerty2dvorak 1000 = 1000 :=
  ⟨C10_amended.2.1 KEY_Q (by decide), C10_amended.2.2.2.1 1000 (by decide)⟩

/-! Claim C2. -/

/-- C2 (code bug): with the pending table full and a nonzero modifier
state, a further remappable press in the latest implementation (part_001)
prints the warning, does not insert, does not crash — but emits nothing at
all, swallowing the press instead of forwarding the unmapped code.  The
earlier implementation in src/dvorak.c behaves as the claim states: it
emits the unmapped physical code.  The press event is (EV_KEY, KEY_I, 1). -/
theorem C2_overflow_swallows_press :
    dv.step false false sFull ⟨EV_KEY, KEY_I, 1⟩ = (sFull, [], true) ∧
    dvc.step cfgPlain sFullC ⟨EV_KEY, KEY_I, 1⟩
      = (sFullC, [⟨EV_KEY, KEY_I, 1⟩], true) := by decide

/-! Claim C9. -/

/-- C9 (code bug): in umlaut mode, the trace press LEFTSHIFT, press KEY_6,
release LEFTSHIFT, release KEY_6 makes the engine inject a synthetic
right-alt press before KEY_6's press, but no right-alt release ever
follows: the release branch re-checks the current shift state, which is
already gone.  The synthetic right-alt is left permanently stuck. -/
theorem C9_stuck_right_alt :
    (dvc.run_events cfgUmlaut s0dvc umlautTrace).2 =
      [⟨EV_KEY, KEY_LEFTSHIFT, 1⟩, ⟨EV_KEY, KEY_RIGHTALT, 1⟩,
       ⟨EV_SYN, SYN_REPORT, 0⟩, ⟨EV_KEY, KEY_6, 1⟩,
       ⟨EV_KEY, KEY_LEFTSHIFT, 0⟩, ⟨EV_KEY, KEY_6, 0⟩] ∧
    ((dvc.run_events cfgUmlaut s0dvc umlautTrace).2.countP
       (fun ev => ev.code == KEY_RIGHTALT && ev.value == 1)) = 1 ∧
    ((dvc.run_events cfgUmlaut s0dvc umlautTrace).2.countP
       (fun ev => ev.code == KEY_RIGHTALT && ev.value == 0)) = 0 := by decide

/-! Claim C1: counterexample. -/

/-- C1 counterexample: ctrl press, Q press (emits the mapped code KEY_X and
records it), then three consecutive left-alt presses — modifier press
events — toggle the mapping off, and the release of Q is emitted as the
raw code KEY_Q with the table entry still present, contradicting
"regardless of any modifier press/release events processed between the
press and the release". -/
theorem C1_counterexample :
    (dv.run_events false false s0dv c1trace).2 =
      [⟨EV_KEY, KEY_LEFTCTRL, 1⟩, ⟨EV_KEY, KEY_X, 1⟩, ⟨EV_KEY, KEY_LEFTALT, 1⟩,
       ⟨EV_KEY, KEY_LEFTALT, 1⟩, ⟨EV_KEY, KEY_LEFTALT, 1⟩, ⟨EV_KEY, KEY_Q, 0⟩] ∧
    (dv.run_events false false s0dv c1trace).1.array_qwerty =
      [KEY_X, 0, 0, 0, 0, 0, 0, 0] := by decide

/-! Claim C3: counterexample. -/

/-- C3 counterexample: starting from a toggle state whose consecutive-press
counter holds 1, three consecutive toggle-key presses flip the boolean
exactly once but leave the counter at 1, not 0. -/
theorem C3_counterexample :
    (dv.run_events false false c3s [ealt, ealt, ealt]).1.l_alt = 1 ∧
    (dv.run_events false false c3s [ealt, ealt, ealt]).1.disable_mapping = true := by
  decide

/-! Claim C4: counterexample. -/

/-- C4 counterexample: a non-key event (type EV_ABS) with code 56 and
value 1 increments the consecutive-press counter, although it is not a
key-event press of the toggle key. -/
theorem C4_counterexample :
    (dv.step false false s0dv ⟨EV_ABS, KEY_LEFTALT, 1⟩).1.l_alt = 1 ∧
    (⟨EV_ABS, KEY_LEFTALT, 1⟩ : Event).type ≠ EV_KEY := by decide

/-! Claim C7: counterexample. -/

/-- C7 counterexample: in the latest implementation a short read terminates
the loop and the process exits with EXIT_SUCCESS (0), not a non-zero
failure status as claimed.  The same holds for an error other than EINTR. -/
theorem C7_counterexample :
    dv.dispatch ReadResult.short = LoopAction.terminate EXIT_SUCCESS ∧
    dv.dispatch (ReadResult.fail 5) = LoopAction.terminate EXIT_SUCCESS ∧
    EXIT_SUCCESS = 0 := by decide

/-- C7 (amended): a short read, or a read error other than EINTR,
terminates the event loop; the latest implementation (part_001) then exits
with EXIT_SUCCESS while the earlier dvorak.c exits with EXIT_FAILURE; an
EINTR read failure is retried transparently in both. -/
theorem C7_amended :
    (∀ errno : Nat, errno ≠ EINTR →
       dv.dispatch (ReadResult.fail errno) = LoopAction.terminate EXIT_SUCCESS) ∧
    dv.dispatch ReadResult.short = LoopAction.terminate EXIT_SUCCESS ∧
    dv.dispatch (ReadResult.fail EINTR) = LoopAction.retry ∧
    (∀ (nt nc : Bool) (rs : List ReadResult) (s : dv.State),
       dv.run_loop nt nc (ReadResult.short :: rs) s = (s, [], some EXIT_SUCCESS)) ∧
    (∀ (nt nc : Bool) (rs : List ReadResult) (s : dv.State),
       dv.run_loop nt nc (ReadResult.fail EINTR :: rs) s = dv.run_loop nt nc rs s) ∧
    (∀ errno : Nat, errno ≠ EINTR →
       dvc.dispatch (ReadResult.fail errno) = LoopAction.terminate EXIT_FAILURE) ∧
    dvc.dispatch ReadResult.short = LoopAction.terminate EXIT_FAILURE ∧
    dvc.dispatch (ReadResult.fail EINTR) = LoopAction.retry := by
  refine ⟨?_, by decide, by decide, ?_, ?_, ?_, by decide, by decide⟩
  · intro errno h
    simp [dv.dispatch, h]
  · intro nt nc rs s
    simp [dv.run_loop, dv.dispatch]
  · intro nt nc rs s
    simp [dv.run_loop, dv.dispatch]
  · intro errno h
    simp [dvc.dispatch, h]

/-- C7 witness: the amended dispatch behaviour evaluated at the concrete
errno 5 (EIO) and at a concrete loop state. -/
theorem C7_witness :
    dv.dispatch (ReadResult.fail 5) = LoopAction.terminate EXIT_SUCCESS ∧
    dvc.dispatch (ReadResult.fail 5) = LoopAction.terminate EXIT_FAILURE ∧
    dv.run_loop false false [ReadResult.short] s0dv = (s0dv, [], some EXIT_SUCCESS) :=
  ⟨C7_amended.1 5 (by decide), C7_amended.2.2.2.2.2.1 5 (by decide),
   C7_amended.2.2.2.1 false false [] s0dv⟩

/-! Claim C8. -/

theorem setup_abs_param_once (env : dv.AbsEnv) (bits : List Nat) :
    ∀ (l : List Nat) (acc : List dv.AbsAction),
      ((dv.setup_abs_go env bits l true acc).2.countP dv.AbsAction.is_param_copy)
        ≤ acc.countP dv.AbsAction.is_param_copy := by
  intro l
  induction l with
  | nil => intro acc; exact Nat.le_refl _
  | cons i rest ih =>
    intro acc
    unfold dv.setup_abs_go
    split_ifs <;>
      first
        | exact absurd trivial (by assumption)
        | exact (by assumption : False).elim
        | exact ih acc
        | exact Nat.le_refl _
        | (have hrec := ih (acc ++ [dv.AbsAction.set_bit i])
           simpa [List.countP_append, dv.AbsAction.is_param_copy] using hrec)

theorem setup_abs_param_le (env : dv.AbsEnv) (bits : List Nat) :
    ∀ (l : List Nat) (acc : List dv.AbsAction),
      ((dv.setup_abs_go env bits l false acc).2.countP dv.AbsAction.is_param_copy)
        ≤ acc.countP dv.AbsAction.is_param_copy + 1 := by
  intro l
  induction l with
  | nil => intro acc; exact Nat.le_add_right _ _
  | cons i rest ih =>
    intro acc
    unfold dv.setup_abs_go
    split_ifs <;>
      first
        | exact absurd rfl (by assumption)
        | exact (by assumption : False).elim
        | exact ih acc
        | simp [List.countP_append, dv.AbsAction.is_param_copy]
        | (have hrec := setup_abs_param_once env bits rest
            (acc ++ [dv.AbsAction.param_copy i, dv.AbsAction.set_bit i])
           simpa [List.countP_append, dv.AbsAction.is_param_copy] using hrec)

/-- C8 counterexample: with two advertised axes (bits 0 and 1 set) and
every system call succeeding, axis 1 is registered (UI_SET_ABSBIT) but its
min/max/resolution/fuzz/flat parameters are never copied — the claim that
every advertised axis has its parameters copied fails at axis 1. -/
theorem C8_counterexample :
    has_bit [3] 1 = true ∧
    dv.AbsAction.set_bit 1 ∈ (dv.setup_event_type_abs envAllOk 2 [3]).2 ∧
    dv.AbsAction.param_copy 1 ∉ (dv.setup_event_type_abs envAllOk 2 [3]).2 ∧
    (dv.setup_event_type_abs envAllOk 2 [3]).1 = true := by decide

/-- C8 (amended): the `abs_init_once` flag limits parameter copying to at
most one axis per call — only the first advertised axis whose EVIOCGABS
and UI_ABS_SETUP succeed has its parameters copied; a failed parameter
read is non-fatal and skips only that axis (the next advertised axis then
becomes the one copied), and every other advertised axis is registered
without parameter copying. -/
theorem C8_amended :
    (∀ (env : dv.AbsEnv) (max_val : Nat) (bits : List Nat),
       ((dv.setup_event_type_abs env max_val bits).2.countP
          dv.AbsAction.is_param_copy) ≤ 1) ∧
    dv.setup_event_type_abs envAllOk 2 [3]
      = (true, [dv.AbsAction.param_copy 0, dv.AbsAction.set_bit 0,
                dv.AbsAction.set_bit 1]) ∧
    dv.setup_event_type_abs envFail0 2 [3]
      = (true, [dv.AbsAction.param_copy 1, dv.AbsAction.set_bit 1]) := by
  refine ⟨?_, by decide, by decide⟩
  intro env max_val bits
  have h := setup_abs_param_le env bits (List.range max_val) []
  simpa [dv.setup_event_type_abs] using h

/-! Helper lemmas about the part_001 engine state. -/

theorem dv_toggle_preserves (nt : Bool) (s : dv.State) (e : Event) :
    (dv.toggle_update nt s e).mod_state = s.mod_state ∧
    (dv.toggle_update nt s e).array_qwerty = s.array_qwerty ∧
    (dv.toggle_update nt s e).array_qwerty_counter = s.array_qwerty_counter := by
  unfold dv.toggle_update
  split_ifs <;> exact ⟨rfl, rfl, rfl⟩

set_option maxHeartbeats 1000000 in
theorem dv_key_step_l_alt (nc : Bool) (s : dv.State) (e : Event) :
    (dv.key_step nc s e).1.l_alt = s.l_alt := by
  unfold dv.key_step
  split
  case isFalse => rfl
  case isTrue =>
    dsimp only
    split
    case isFalse => rfl
    case isTrue =>
      repeat' split
      all_goals rfl

set_option maxHeartbeats 1000000 in
theorem dv_key_step_disable (nc : Bool) (s : dv.State) (e : Event) :
    (dv.key_step nc s e).1.disable_mapping = s.disable_mapping := by
  unfold dv.key_step
  split
  case isFalse => rfl
  case isTrue =>
    dsimp only
    split
    case isFalse => rfl
    case isTrue =>
      repeat' split
      all_goals rfl

theorem dv_key_step_fixed (nc : Bool) (s : dv.State) (e : Event)
    (h : qwerty2dvorak e.code = e.code) :
    (dv.key_step nc s e).1.array_qwerty = s.array_qwerty ∧
    (dv.key_step nc s e).1.array_qwerty_counter = s.array_qwerty_counter := by
  unfold dv.key_step
  dsimp only
  rw [h]
  rw [if_neg (fun hh => hh rfl : ¬ (e.code ≠ e.code))]
  split_ifs <;> exact ⟨rfl, rfl⟩

theorem dv_step_fixed (nt nc : Bool) (s : dv.State) (e : Event)
    (h : qwerty2dvorak e.code = e.code) :
    (dv.step nt nc s e).1.array_qwerty = s.array_qwerty ∧
    (dv.step nt nc s e).1.array_qwerty_counter = s.array_qwerty_counter := by
  have ht := dv_toggle_preserves nt s e
  have hk := dv_key_step_fixed nc (dv.toggle_update nt s e) e h
  exact ⟨hk.1.trans ht.2.1, hk.2.trans ht.2.2⟩

theorem dv_run_events_cons (nt nc : Bool) (s : dv.State) (e : Event)
    (es : List Event) :
    (dv.run_events nt nc s (e :: es)).1
      = (dv.run_events nt nc (dv.step nt nc s e).1 es).1 := by
  simp [dv.run_events]

theorem dv_run_events_append_fst (nt nc : Bool) (s : dv.State)
    (l1 l2 : List Event) :
    (dv.run_events nt nc s (l1 ++ l2)).1
      = (dv.run_events nt nc (dv.run_events nt nc s l1).1 l2).1 := by
  induction l1 generalizing s with
  | nil => simp [dv.run_events]
  | cons e es ih => simp [dv.run_events, ih]

theorem dv_run_fixed (nt nc : Bool) (ms : List Event) :
    ∀ s : dv.State, (∀ e ∈ ms, qwerty2dvorak e.code = e.code) →
      (dv.run_events nt nc s ms).1.array_qwerty = s.array_qwerty ∧
      (dv.run_events nt nc s ms).1.array_qwerty_counter
        = s.array_qwerty_counter := by
  induction ms with
  | nil => intro s _; exact ⟨rfl, rfl⟩
  | cons e es ih =>
    intro s hall
    have h1 := dv_step_fixed nt nc s e (hall e (by simp))
    have h2 := ih (dv.step nt nc s e).1 (fun x hx => hall x (by simp [hx]))
    rw [dv_run_events_cons]
    exact ⟨h2.1.trans h1.1, h2.2.trans h1.2⟩

theorem dv_step_alt_l_alt (nc : Bool) (s : dv.State) :
    (dv.step false nc s ealt).1.l_alt
      = if s.l_alt + 1 ≥ 3 then 0 else s.l_alt + 1 := by
  unfold dv.step
  rw [dv_key_step_l_alt]
  unfold dv.toggle_update
  simp [ealt, apply_ite dv.State.l_alt]

theorem dv_step_alt_disable (nc : Bool) (s : dv.State) :
    (dv.step false nc s ealt).1.disable_mapping
      = if s.l_alt + 1 ≥ 3 then !s.disable_mapping else s.disable_mapping := by
  unfold dv.step
  rw [dv_key_step_disable]
  unfold dv.toggle_update
  simp [ealt, apply_ite dv.State.disable_mapping]

theorem dv_step_alt_small (nc : Bool) (s : dv.State) (h : s.l_alt + 1 < 3) :
    (dv.step false nc s ealt).1.l_alt = s.l_alt + 1 ∧
    (dv.step false nc s ealt).1.disable_mapping = s.disable_mapping := by
  rw [dv_step_alt_l_alt, dv_step_alt_disable]
  rw [if_neg (by omega), if_neg (by omega)]
  exact ⟨rfl, rfl⟩

theorem dv_step_alt_flip (nc : Bool) (s : dv.State) (h : s.l_alt + 1 ≥ 3) :
    (dv.step false nc s ealt).1.l_alt = 0 ∧
    (dv.step false nc s ealt).1.disable_mapping = !s.disable_mapping := by
  rw [dv_step_alt_l_alt, dv_step_alt_disable]
  rw [if_pos h, if_pos h]
  exact ⟨rfl, rfl⟩

theorem dv_triple_alt (nc : Bool) (s : dv.State) (h : s.l_alt < 3) :
    (dv.run_events false nc s [ealt, ealt, ealt]).1.disable_mapping
      = !s.disable_mapping ∧
    (dv.run_events false nc s [ealt, ealt, ealt]).1.l_alt = s.l_alt := by
  have hc : (dv.run_events false nc s [ealt, ealt, ealt]).1
      = (dv.step false nc
          (dv.step false nc (dv.step false nc s ealt).1 ealt).1 ealt).1 := by
    simp [dv.run_events]
  rw [hc]
  obtain h0 | h1 | h2 : s.l_alt = 0 ∨ s.l_alt = 1 ∨ s.l_alt = 2 := by omega
  · have p1 := dv_step_alt_small nc s (by omega)
    have p2 := dv_step_alt_small nc (dv.step false nc s ealt).1 (by rw [p1.1]; omega)
    have p3 := dv_step_alt_flip nc
      (dv.step false nc (dv.step false nc s ealt).1 ealt).1 (by rw [p2.1, p1.1]; omega)
    refine ⟨by rw [p3.2, p2.2, p1.2], by rw [p3.1, h0]⟩
  · have p1 := dv_step_alt_small nc s (by omega)
    have p2 := dv_step_alt_flip nc (dv.step false nc s ealt).1 (by rw [p1.1]; omega)
    have p3 := dv_step_alt_small nc
      (dv.step false nc (dv.step false nc s ealt).1 ealt).1 (by rw [p2.1]; omega)
    refine ⟨by rw [p3.2, p2.2, p1.2], ?_⟩
    rw [p3.1, p2.1, h1]
  · have p1 := dv_step_alt_flip nc s (by omega)
    have p2 := dv_step_alt_small nc (dv.step false nc s ealt).1 (by rw [p1.1]; omega)
    have p3 := dv_step_alt_small nc
      (dv.step false nc (dv.step false nc s ealt).1 ealt).1 (by rw [p2.1, p1.1]; omega)
    refine ⟨by rw [p3.2, p2.2, p1.2], ?_⟩
    rw [p3.1, p2.1, p1.1, h2]

/-! Claim C3: amended theorem and witness. -/

/-- C3 (amended): starting from any enabled/disabled value and any
reachable consecutive-press counter (below 3), three consecutive toggle-key
presses with no other event interleaved flip the mapping boolean exactly
once and return the counter to its starting value — in particular to zero
when it started at zero; six such presses return the boolean to its
original value and the counter to its starting value. -/
theorem C3_amended (nc : Bool) (s : dv.State) (h : s.l_alt < 3) :
    ((dv.run_events false nc s [ealt, ealt, ealt]).1.disable_mapping
       = !s.disable_mapping) ∧
    ((dv.run_events false nc s [ealt, ealt, ealt]).1.l_alt = s.l_alt) ∧
    ((dv.run_events false nc s [ealt, ealt, ealt, ealt, ealt, ealt]).1.disable_mapping
       = s.disable_mapping) ∧
    ((dv.run_events false nc s [ealt, ealt, ealt, ealt, ealt, ealt]).1.l_alt
       = s.l_alt) := by
  have t3 := dv_triple_alt nc s h
  have hsplit : (dv.run_events false nc s [ealt, ealt, ealt, ealt, ealt, ealt]).1
      = (dv.run_events false nc
          (dv.run_events false nc s [ealt, ealt, ealt]).1 [ealt, ealt, ealt]).1 := by
    have hh := dv_run_events_append_fst false nc s [ealt, ealt, ealt] [ealt, ealt, ealt]
    simpa using hh
  have t6 := dv_triple_alt nc (dv.run_events false nc s [ealt, ealt, ealt]).1
    (by rw [t3.2]; exact h)
  refine ⟨t3.1, t3.2, ?_, ?_⟩
  · rw [hsplit, t6.1, t3.1, Bool.not_not]
  · rw [hsplit, t6.2, t3.2]

/-- C3 witness: from the fresh state (counter 0, mapping enabled), three
toggle presses disable the mapping and six presses re-enable it. -/
theorem C3_witness :
    (dv.run_events false false s0dv [ealt, ealt, ealt]).1.disable_mapping = true ∧
    (dv.run_events false false s0dv
       [ealt, ealt, ealt, ealt, ealt, ealt]).1.disable_mapping = false := by
  have h := C3_amended false s0dv (by decide)
  exact ⟨by simpa [s0dv] using h.1, by simpa [s0dv] using h.2.2.1⟩

/-! Claim C4: amended theorem and witness. -/

/-- C4 (amended): with the toggle feature enabled, the consecutive-press
counter is incremented (with wrap to 0 at the third press) by any event
whose code is the toggle key's code and whose value is 1 — regardless of
event type, because the code only checks `ev.code`; it is unchanged by any
other event with the toggle key's code; it is reset to zero by any
key-category event with a different code; and it is unchanged by any
non-key event with a different code. -/
theorem C4_amended (nc : Bool) (s : dv.State) (e : Event) :
    (e.code = KEY_LEFTALT → e.value = 1 →
       (dv.step false nc s e).1.l_alt
         = (if s.l_alt + 1 ≥ 3 then 0 else s.l_alt + 1)) ∧
    (e.code = KEY_LEFTALT → e.value ≠ 1 →
       (dv.step false nc s e).1.l_alt = s.l_alt) ∧
    (e.code ≠ KEY_LEFTALT → e.type = EV_KEY →
       (dv.step false nc s e).1.l_alt = 0) ∧
    (e.code ≠ KEY_LEFTALT → e.type ≠ EV_KEY →
       (dv.step false nc s e).1.l_alt = s.l_alt) := by
  refine ⟨?_, ?_, ?_, ?_⟩ <;> intro hcode hrest <;>
    (unfold dv.step; rw [dv_key_step_l_alt]; unfold dv.toggle_update) <;>
    simp [hcode, hrest, apply_ite dv.State.l_alt]

/-- C4 witness: the amended characterization applied to a key-event press
of the toggle key from the fresh state (the counter becomes 1). -/
theorem C4_witness : (dv.step false false s0dv ealt).1.l_alt = 1 := by
  have h := (C4_amended false s0dv ealt).1 rfl rfl
  simpa [s0dv] using h

/-! Claim C5: theorem and witness. -/

/-- C5 counterexample: a third consecutive toggle-key press arriving while
the mapping is disabled re-enables it before the remap layer runs, and the
remap layer then records left-alt in the modifier state: the event is still
emitted unchanged, but the modifier state changes from 0 to 4, refuting
"neither the modifier state nor the pending key tables are consulted or
modified" for every event arriving while disabled. -/
theorem C5_counterexample :
    c5x.disable_mapping = true ∧ c5x.mod_state = 0 ∧
    (dv.step false false c5x ⟨EV_KEY, KEY_LEFTALT, 1⟩).1.mod_state = 4 ∧
    (dv.step false false c5x ⟨EV_KEY, KEY_LEFTALT, 1⟩).2.1
      = [⟨EV_KEY, KEY_LEFTALT, 1⟩] := by decide

/-- C5 (amended): while the mapping is disabled, any event whose processing
leaves it disabled (every event except a toggle-completing third press of
the toggle key, which re-enables the mapping before the remap layer runs)
is emitted exactly once with identical type/code/value, no warning is
printed, and neither the modifier state nor the pending key table is
modified. -/
theorem C5_disabled_passthrough (nt nc : Bool) (s : dv.State) (e : Event)
    (h : s.disable_mapping = true)
    (h2 : (dv.toggle_update nt s e).disable_mapping = true) :
    (dv.step nt nc s e).2.1 = [e] ∧
    (dv.step nt nc s e).2.2 = false ∧
    (dv.step nt nc s e).1.mod_state = s.mod_state ∧
    (dv.step nt nc s e).1.array_qwerty = s.array_qwerty ∧
    (dv.step nt nc s e).1.array_qwerty_counter = s.array_qwerty_counter := by
  have ht := dv_toggle_preserves nt s e
  unfold dv.step dv.key_step
  rw [if_neg]
  · exact ⟨rfl, rfl, ht.1, ht.2.1, ht.2.2⟩
  · intro hc
    rw [h2] at hc
    exact absurd hc.1 (by decide)

/-- C5 witness: a relative-motion event processed in a disabled state is
passed through unchanged with the modifier state untouched. -/
theorem C5_witness :
    (dv.step false false c5s ⟨EV_REL, 8, 1⟩).2.1 = [⟨EV_REL, 8, 1⟩] ∧
    (dv.step false false c5s ⟨EV_REL, 8, 1⟩).1.mod_state = c5s.mod_state := by
  have hh := C5_disabled_passthrough false false c5s ⟨EV_REL, 8, 1⟩ (by decide) (by decide)
  exact ⟨hh.1, hh.2.2.1⟩

/-! Claim C6: theorem and witness. -/

/-- C6: after the earlier setup gates pass (device name readable, not the
self-created virtual device, keyword filter satisfied, capability reads
succeed), a key-capability bitmap lacking any one of KEY_X, KEY_C, KEY_V
makes `main` classify the device as not a keyboard, create no virtual
device, and exit with success status 0. -/
theorem C6_not_keyboard (env : dv.SetupEnv) (name : String) (evb kb : List Nat)
    (h1 : env.name_res = some name)
    (h2 : name ≠ dv.virtual_name)
    (h3 : dv.match_passes env.match_words name = true)
    (h4 : env.ev_bits_res = some evb)
    (h5 : has_bit evb EV_KEY = true)
    (h6 : env.key_bits_res = some kb)
    (h7 : (if has_bit evb EV_REL = true then env.rel_bits_res
           else some [0]).isSome = true)
    (h8 : (if has_bit evb EV_ABS = true then env.abs_bits_res
           else some [0, 0]).isSome = true)
    (h9 : (if has_bit evb EV_MSC = true then env.msc_bits_res
           else some [0]).isSome = true)
    (h10 : (has_bit kb KEY_X && has_bit kb KEY_C && has_bit kb KEY_V) = false) :
    dv.main_setup env = ⟨some EXIT_SUCCESS, false⟩ := by
  obtain ⟨rb, hrb⟩ := Option.isSome_iff_exists.mp h7
  obtain ⟨ab, hab⟩ := Option.isSome_iff_exists.mp h8
  obtain ⟨mb, hmb⟩ := Option.isSome_iff_exists.mp h9
  unfold dv.main_setup
  rw [h1]
  dsimp only
  rw [if_neg h2]
  rw [if_neg (by rw [h3]; decide)]
  rw [h4]
  dsimp only
  rw [if_pos h5, h6, hrb, hab, hmb]
  dsimp only
  rw [if_pos (by rw [h10])]

/-- C6 witness: a device advertising EV_KEY whose key bitmap is all zeros
is rejected as not a keyboard with exit status 0 and no virtual device. -/
theorem C6_witness : dv.main_setup envNoKeys = ⟨some EXIT_SUCCESS, false⟩ :=
  C6_not_keyboard envNoKeys "Some Device" [2] (List.replicate 24 0)
    rfl (by decide) rfl rfl (by decide) rfl (by decide) (by decide) (by decide)
    (by decide)

/-! List helpers for reasoning about the pending table. -/

theorem getD_set_ne (l : List Nat) (i j a : Nat) (h : i ≠ j) :
    (l.set i a).getD j 0 = l.getD j 0 := by
  rw [List.getD_eq_getElem?_getD, List.getD_eq_getElem?_getD,
    List.getElem?_set_ne h]

theorem getD_set_self (l : List Nat) (i a : Nat) (h : i < l.length) :
    (l.set i a).getD i 0 = a := by
  rw [List.getD_eq_getElem?_getD, List.getElem?_set_self h]
  rfl

theorem mem_take_getD {l : List Nat} {n x : Nat} (hx : x ∈ l.take n) :
    ∃ j, j < n ∧ j < l.length ∧ l.getD j 0 = x := by
  obtain ⟨j, hj, he⟩ := List.mem_iff_getElem.mp hx
  have hjn : j < n := lt_of_lt_of_le hj (by simp [List.length_take])
  have hjl : j < l.length := lt_of_lt_of_le hj (by simp [List.length_take])
  refine ⟨j, hjn, hjl, ?_⟩
  rw [List.getElem_take] at he
  rw [List.getD_eq_getElem?_getD, List.getElem?_eq_getElem hjl]
  simpa using he

theorem getD_mem_take {l : List Nat} {n j : Nat} (hj : j < n) (hl : j < l.length) :
    l.getD j 0 ∈ l.take n := by
  have hlen : j < (l.take n).length := by
    simp only [List.length_take]
    omega
  have hee : (l.take n)[j] = l[j] := List.getElem_take l
  rw [List.getD_eq_getElem?_getD, List.getElem?_eq_getElem hl]
  simpa [hee] using List.getElem_mem hlen

theorem fold_last_le (arr : List Nat) :
    ∀ (n acc : Nat),
      (List.range n).foldl (fun a j => if arr.getD j 0 ≠ 0 then j + 1 else a) acc
        ≤ max acc n := by
  intro n
  induction n with
  | zero => intro acc; simp
  | succ m ih =>
    intro acc
    rw [List.range_succ, List.foldl_append]
    simp only [List.foldl_cons, List.foldl_nil]
    split
    · omega
    · have := ih acc
      omega

theorem release_update_last (arr : List Nat) (cnt q : Nat)
    (hlen : cnt < arr.length)
    (hout : ∀ j, j < cnt → arr.getD j 0 ≠ q) :
    ∃ cnt2, dv.release_update (arr.set cnt q) (cnt + 1) q
        = some (arr.set cnt 0, cnt2) ∧ cnt2 ≤ cnt := by
  have hfind : (List.range (cnt + 1)).find?
      (fun i => (arr.set cnt q).getD i 0 == q) = some cnt := by
    rw [List.range_succ, List.find?_append]
    have h1 : (List.range cnt).find?
        (fun i => (arr.set cnt q).getD i 0 == q) = none := by
      rw [List.find?_eq_none]
      intro x hx
      have hxc : x < cnt := List.mem_range.mp hx
      rw [getD_set_ne arr cnt x q (by omega)]
      simpa using hout x hxc
    rw [h1]
    have h2 : ((arr.set cnt q).getD cnt 0 == q) = true := by
      rw [getD_set_self arr cnt q hlen]
      simp
    rw [List.getD_eq_getElem?_getD] at h2
    simp [List.find?_cons, h2]
  unfold dv.release_update
  rw [hfind]
  dsimp only
  rw [List.set_set]
  refine ⟨_, rfl, ?_⟩
  rw [List.range_succ, List.foldl_append]
  simp only [List.foldl_cons, List.foldl_nil]
  have hz : (arr.set cnt 0)[cnt]?.getD 0 = 0 := by
    rw [← List.getD_eq_getElem?_getD]
    exact getD_set_self arr cnt 0 hlen
  rw [if_neg (by simp [hz])]
  have := fold_last_le (arr.set cnt 0) cnt 0
  omega

/-! Characterizations of single steps of the part_001 engine. -/

theorem dv_toggle_key_other (nt : Bool) (t : dv.State) (e : Event)
    (hty : e.type = EV_KEY) (hc : e.code ≠ KEY_LEFTALT) :
    dv.toggle_update nt t e = { t with l_alt := 0 } := by
  unfold dv.toggle_update
  rw [if_neg (fun hh => hc hh.2), if_pos hty]

theorem dv_press_insert (nc : Bool) (t : dv.State) (e : Event)
    (hd : t.disable_mapping = false) (hty : e.type = EV_KEY) (hv : e.value = 1)
    (hmap : qwerty2dvorak e.code ≠ e.code) (hmod : 0 < t.mod_state)
    (hcnt : t.array_qwerty_counter ≠ dv.MAX_LENGTH) :
    dv.key_step nc t e =
      ({ t with
          array_qwerty :=
            t.array_qwerty.set t.array_qwerty_counter (qwerty2dvorak e.code),
          array_qwerty_counter := t.array_qwerty_counter + 1 },
       [⟨e.type, qwerty2dvorak e.code, e.value⟩], false) := by
  have hmodc : modifier_bit e.code = 0 := q2d_modifier_zero _ hmap
  unfold dv.key_step
  rw [if_pos ⟨hd, hty⟩]
  dsimp only
  rw [hmodc]
  simp only [ite_self]
  rw [if_neg (by omega : ¬ ((0 : Nat) > 0))]
  rw [if_pos (Ne.symm hmap)]
  rw [if_pos hv]
  rw [if_pos hmod]
  rw [if_neg hcnt]

theorem dv_release_emit (nc : Bool) (t : dv.State) (e : Event)
    (arr2 : List Nat) (cnt2 : Nat)
    (hd : t.disable_mapping = false) (hty : e.type = EV_KEY) (hv : e.value = 0)
    (hmap : qwerty2dvorak e.code ≠ e.code)
    (hfound : dv.release_update t.array_qwerty t.array_qwerty_counter
                (qwerty2dvorak e.code) = some (arr2, cnt2)) :
    dv.key_step nc t e =
      ({ t with array_qwerty := arr2, array_qwerty_counter := cnt2 },
       [⟨e.type, qwerty2dvorak e.code, e.value⟩], false) := by
  have hmodc : modifier_bit e.code = 0 := q2d_modifier_zero _ hmap
  unfold dv.key_step
  rw [if_pos ⟨hd, hty⟩]
  dsimp only
  rw [hmodc]
  simp only [ite_self]
  rw [if_neg (by omega : ¬ ((0 : Nat) > 0))]
  rw [if_pos (Ne.symm hmap)]
  rw [if_neg (by rw [hv]; decide)]
  rw [if_neg (by rw [hv]; decide)]
  rw [if_pos hv]
  rw [hfound]

/-! Claim C1: amended theorem and witness. -/

set_option maxHeartbeats 1000000 in
/-- C1 (amended): for a key press processed while the primary layer is
active with a nonzero modifier state, whose code is remapped and recorded
in the pending table (table not full, key not already held), the
subsequent release of the same physical code emits exactly the recorded
mapped output with value 0 and removes the entry — for every sequence of
modifier press/release events processed in between, provided the toggle
feature has not flipped the mapping to disabled by the time the release is
processed (three consecutive toggle-key presses in between can do so,
which is the one amendment to the claim). -/
theorem C1_amended (nt nc : Bool) (s : dv.State) (c : Nat) (ms : List Event)
    (h_dis : s.disable_mapping = false)
    (h_mod : 0 < s.mod_state)
    (h_map : qwerty2dvorak c ≠ c)
    (h_len : s.array_qwerty.length = dv.MAX_LENGTH)
    (h_cnt : s.array_qwerty_counter < dv.MAX_LENGTH)
    (h_fresh : qwerty2dvorak c ∉ s.array_qwerty.take s.array_qwerty_counter)
    (h_ms : ∀ e ∈ ms, e.type = EV_KEY ∧ modifier_bit e.code ≠ 0)
    (h_en : (dv.run_events nt nc (dv.step nt nc s ⟨EV_KEY, c, 1⟩).1 ms).1.disable_mapping
              = false) :
    (dv.step nt nc s ⟨EV_KEY, c, 1⟩).2.1 = [⟨EV_KEY, qwerty2dvorak c, 1⟩] ∧
    (dv.step nt nc
        (dv.run_events nt nc (dv.step nt nc s ⟨EV_KEY, c, 1⟩).1 ms).1
        ⟨EV_KEY, c, 0⟩).2.1 = [⟨EV_KEY, qwerty2dvorak c, 0⟩] ∧
    qwerty2dvorak c ∉
      ((dv.step nt nc
          (dv.run_events nt nc (dv.step nt nc s ⟨EV_KEY, c, 1⟩).1 ms).1
          ⟨EV_KEY, c, 0⟩).1.array_qwerty.take
        (dv.step nt nc
          (dv.run_events nt nc (dv.step nt nc s ⟨EV_KEY, c, 1⟩).1 ms).1
          ⟨EV_KEY, c, 0⟩).1.array_qwerty_counter) := by
  have hc56 : c ≠ KEY_LEFTALT := q2d_ne_leftalt c h_map
  have hlen8 : s.array_qwerty.length = 8 := h_len
  have hcnt8 : s.array_qwerty_counter < 8 := h_cnt
  -- the press step
  have ht1 : dv.toggle_update nt s ⟨EV_KEY, c, 1⟩ = { s with l_alt := 0 } :=
    dv_toggle_key_other nt s ⟨EV_KEY, c, 1⟩ rfl hc56
  have hpress : dv.step nt nc s ⟨EV_KEY, c, 1⟩
      = ({ s with
            l_alt := 0,
            array_qwerty :=
              s.array_qwerty.set s.array_qwerty_counter (qwerty2dvorak c),
            array_qwerty_counter := s.array_qwerty_counter + 1 },
         [⟨EV_KEY, qwerty2dvorak c, 1⟩], false) := by
    unfold dv.step
    rw [ht1]
    exact dv_press_insert nc { s with l_alt := 0 } ⟨EV_KEY, c, 1⟩ h_dis rfl rfl
      h_map h_mod (Nat.ne_of_lt h_cnt)
  refine ⟨by rw [hpress], ?_⟩
  -- the intermediate modifier events leave the pending table unchanged
  have hrun := dv_run_fixed nt nc ms (dv.step nt nc s ⟨EV_KEY, c, 1⟩).1
    (fun e he => modifier_bit_fixed e.code (h_ms e he).2)
  have hzarr : (dv.run_events nt nc (dv.step nt nc s ⟨EV_KEY, c, 1⟩).1 ms).1.array_qwerty
      = s.array_qwerty.set s.array_qwerty_counter (qwerty2dvorak c) := by
    rw [hrun.1, hpress]
  have hzcnt : (dv.run_events nt nc (dv.step nt nc s ⟨EV_KEY, c, 1⟩).1 ms).1.array_qwerty_counter
      = s.array_qwerty_counter + 1 := by
    rw [hrun.2, hpress]
  -- the release step
  have hout : ∀ j, j < s.array_qwerty_counter → s.array_qwerty.getD j 0 ≠ qwerty2dvorak c := by
    intro j hj hEq
    exact h_fresh (hEq ▸ getD_mem_take hj (by omega))
  obtain ⟨cnt2, hrel, hcnt2⟩ := release_update_last s.array_qwerty
    s.array_qwerty_counter (qwerty2dvorak c) (by omega) hout
  have ht2 : dv.toggle_update nt
        (dv.run_events nt nc (dv.step nt nc s ⟨EV_KEY, c, 1⟩).1 ms).1 ⟨EV_KEY, c, 0⟩
      = { (dv.run_events nt nc (dv.step nt nc s ⟨EV_KEY, c, 1⟩).1 ms).1 with
          l_alt := 0 } :=
    dv_toggle_key_other nt _ ⟨EV_KEY, c, 0⟩ rfl hc56
  have hstep2 : dv.step nt nc
        (dv.run_events nt nc (dv.step nt nc s ⟨EV_KEY, c, 1⟩).1 ms).1 ⟨EV_KEY, c, 0⟩
      = ({ (dv.run_events nt nc (dv.step nt nc s ⟨EV_KEY, c, 1⟩).1 ms).1 with
            l_alt := 0
            array_qwerty := s.array_qwerty.set s.array_qwerty_counter 0
            array_qwerty_counter := cnt2 },
         [⟨EV_KEY, qwerty2dvorak c, 0⟩], false) := by
    show dv.key_step nc
      (dv.toggle_update nt
        (dv.run_events nt nc (dv.step nt nc s ⟨EV_KEY, c, 1⟩).1 ms).1
        ⟨EV_KEY, c, 0⟩)
      ⟨EV_KEY, c, 0⟩ = _
    rw [ht2]
    refine dv_release_emit nc _ ⟨EV_KEY, c, 0⟩
      (s.array_qwerty.set s.array_qwerty_counter 0) cnt2 h_en rfl rfl h_map ?_
    show dv.release_update
      (dv.run_events nt nc (dv.step nt nc s ⟨EV_KEY, c, 1⟩).1 ms).1.array_qwerty
      (dv.run_events nt nc (dv.step nt nc s ⟨EV_KEY, c, 1⟩).1 ms).1.array_qwerty_counter
      (qwerty2dvorak c) = _
    rw [hzarr, hzcnt]
    exact hrel
  refine ⟨by rw [hstep2], ?_⟩
  rw [hstep2]
  dsimp only
  intro hmem
  obtain ⟨j, hj2, hjl, hgd⟩ := mem_take_getD hmem
  rw [getD_set_ne s.array_qwerty s.array_qwerty_counter j 0
    (by omega : s.array_qwerty_counter ≠ j)] at hgd
  exact hout j (by omega) hgd

/-- C1 witness: with left-ctrl held, pressing KEY_Q emits KEY_X and, after
releasing left-ctrl in between, releasing KEY_Q emits KEY_X with value 0. -/
theorem C1_witness :
    (dv.step false false c1s ⟨EV_KEY, KEY_Q, 1⟩).2.1 = [⟨EV_KEY, KEY_X, 1⟩] ∧
    (dv.step false false
        (dv.run_events false false (dv.step false false c1s ⟨EV_KEY, KEY_Q, 1⟩).1
          [⟨EV_KEY, KEY_LEFTCTRL, 0⟩]).1
        ⟨EV_KEY, KEY_Q, 0⟩).2.1 = [⟨EV_KEY, KEY_X, 0⟩] := by
  have hq : qwerty2dvorak KEY_Q = KEY_X := by decide
  have h := C1_amended false false c1s KEY_Q [⟨EV_KEY, KEY_LEFTCTRL, 0⟩]
    (by decide) (by decide) (by decide) (by decide) (by decide) (by decide)
    (by intro e he; simp at he; subst he; exact ⟨rfl, by decide⟩)
    (by decide)
  rw [hq] at h
  exact ⟨h.1, h.2.1⟩
